import Mathlib

/-
Verification of the AltitudeEffect repository (Rayleigh distillation model of
the isotopic altitude effect).  Shallow embedding over ℝ of:
  - MetFun.py        (m2hPa, hPa2m, SatVapPress),
  - EqFracFact.py    (alpha18, alpha2),
  - AltitudeEffect.py (altitude grid, vertical integration engine,
                       precipitation cleanup pass).
Python floats are modelled as exact reals; `**` on floats is Real.rpow,
`math.exp` is Real.exp.  NumPy arrays indexed in a forward pass become a
recursively defined per-level profile; the single-index array mutation of the
loop body is also modelled as `Function.update` for the frame claim.
-/

namespace AltitudeEffect

/-- MetFun.py line 18: atmospheric pressure (hPa) at altitude `m` (meters),
`(1-(m/44307.69396))**(1/0.190284)*1013.25`. -/
noncomputable def m2hPa (m : ℝ) : ℝ :=
  (1 - m / 44307.69396) ^ ((1 : ℝ) / 0.190284) * 1013.25

/-- MetFun.py line 38: altitude (m) at atmospheric pressure `hPa`,
`(1-(hPa/1013.25)**0.190284)*44307.69396`. -/
noncomputable def hPa2m (hPa : ℝ) : ℝ :=
  (1 - (hPa / 1013.25) ^ (0.190284 : ℝ)) * 44307.69396

/-- MetFun.py line 86: Buck (1981) saturation vapor pressure (hPa) at
temperature `T` (°C): `6.1121*exp((18.678-T/234.5)*(T/(257.14+T)))`. -/
noncomputable def SatVapPress (T : ℝ) : ℝ :=
  6.1121 * Real.exp ((18.678 - T / 234.5) * (T / (257.14 + T)))

/-- EqFracFact.py lines 27-33: 18O/16O liquid-vapor equilibrium fractionation
factor at `T` (°C).  The source converts to Kelvin (`T = T+273.15`) and tests
`T >= 268.16`: the Majoube (1971) branch runs at or above 268.16 K, the
Ellehoj et al. (2013) branch strictly below. -/
noncomputable def alpha18 (T : ℝ) : ℝ :=
  if 268.16 ≤ T + 273.15 then
    Real.exp (1137 / (T + 273.15) ^ 2 - 0.4156 / (T + 273.15) - 0.0020667)
  else
    Real.exp (8312.58 / (T + 273.15) ^ 2 - 49.192 / (T + 273.15) + 0.0831)

/-- EqFracFact.py lines 35-41: 2H/1H liquid-vapor equilibrium fractionation
factor at `T` (°C), same Kelvin conversion and `>=` threshold test. -/
noncomputable def alpha2 (T : ℝ) : ℝ :=
  if 268.16 ≤ T + 273.15 then
    Real.exp (24844 / (T + 273.15) ^ 2 - 76.248 / (T + 273.15) + 0.052612)
  else
    Real.exp (48888 / (T + 273.15) ^ 2 - 203.10 / (T + 273.15) + 0.2133)

/-- The Majoube (1971) liquid-water 18O formula as the spec words it
(polynomial in inverse Kelvin temperature `K`). -/
noncomputable def majoubeLiquid18 (K : ℝ) : ℝ :=
  Real.exp (1137 / K ^ 2 - 0.4156 / K - 0.0020667)

/-- The Ellehoj et al. (2013) ice 18O formula as the spec words it. -/
noncomputable def ellehojIce18 (K : ℝ) : ℝ :=
  Real.exp (8312.58 / K ^ 2 - 49.192 / K + 0.0831)

/-- The Majoube (1971) liquid-water deuterium formula as the spec words it. -/
noncomputable def majoubeLiquid2 (K : ℝ) : ℝ :=
  Real.exp (24844 / K ^ 2 - 76.248 / K + 0.052612)

/-- The Ellehoj et al. (2013) ice deuterium formula as the spec words it. -/
noncomputable def ellehojIce2 (K : ℝ) : ℝ :=
  Real.exp (48888 / K ^ 2 - 203.10 / K + 0.2133)

/-- AltitudeEffect.py line 47: `VSMOW1816 = 2005.20*1e-6`. -/
noncomputable def VSMOW1816 : ℝ := 2005.20 * 1e-6

/-- AltitudeEffect.py line 48: `VSMOW21 = 155.76*1e-6`. -/
noncomputable def VSMOW21 : ℝ := 155.76 * 1e-6

/-- Simulation parameters and initial conditions of AltitudeEffect.py
lines 34-44 (the script's module-level settings, treated as the engine's
configuration input per spec section 6). -/
structure Config where
  MLR : ℝ
  MinZ : ℝ
  MaxZ : ℝ
  Zres : ℝ
  Tz0 : ℝ
  P0 : ℝ
  RH0 : ℝ
  d18O0 : ℝ
  dD0 : ℝ

/-- The literal settings of AltitudeEffect.py lines 34-44. -/
noncomputable def defaultConfig : Config :=
  { MLR := 5, MinZ := 0, MaxZ := 4000, Zres := 10, Tz0 := 20, P0 := 1013.25,
    RH0 := 85 / 100, d18O0 := -12, dD0 := 10 + 8 * (-12) }

/-- AltitudeEffect.py line 51: the sample count `np.int((MaxZ - MinZ)/Zres)`;
`np.int` truncates, which is `Nat.floor` for the nonnegative values used. -/
noncomputable def nLevels (c : Config) : ℕ := ⌊(c.MaxZ - c.MinZ) / c.Zres⌋₊

/-- AltitudeEffect.py line 51: `np.linspace(MinZ, MaxZ, nLevels)`, sample `i`;
for two or more samples linspace spaces them by `(MaxZ-MinZ)/(count-1)` with
both endpoints included. -/
noncomputable def Zvector (c : Config) (i : ℕ) : ℝ :=
  c.MinZ + i * ((c.MaxZ - c.MinZ) / ((nLevels c - 1 : ℕ) : ℝ))

/-- AltitudeEffect.py line 52: `Tvector = Tz0 - (Zvector*MLR/1000)`. -/
noncomputable def Tvector (c : Config) (z : ℕ) : ℝ :=
  c.Tz0 - Zvector c z * c.MLR / 1000

/-- The per-level entries of the parallel arrays of AltitudeEffect.py
lines 53-57: VaporConcentration, VaporFraction, RHvector, the two columns of
VaporComposition (d18O, dD) and the two columns of PrecComposition. -/
structure LevelState where
  VaporConcentration : ℝ
  VaporFraction : ℝ
  RHvector : ℝ
  VaporComposition18 : ℝ
  VaporCompositionD : ℝ
  PrecComposition18 : ℝ
  PrecCompositionD : ℝ

/-- AltitudeEffect.py line 61: `VaporConcentration[0]`, never overwritten by
the loop (which starts at z = 1). -/
noncomputable def VaporConcentration0 (c : Config) : ℝ :=
  1e6 * c.RH0 * SatVapPress c.Tz0 / c.P0

/-- AltitudeEffect.py line 66: `R1816_0_VAP = ((d18O0*1e-3)+1)*VSMOW1816`. -/
noncomputable def R1816_0_VAP (c : Config) : ℝ := (c.d18O0 * 1e-3 + 1) * VSMOW1816

/-- AltitudeEffect.py line 67: `R21_0_VAP = ((dD0*1e-3)+1)*VSMOW21`. -/
noncomputable def R21_0_VAP (c : Config) : ℝ := (c.dD0 * 1e-3 + 1) * VSMOW21

/-- AltitudeEffect.py lines 61-65: level-0 initial conditions (arrays are
zero-allocated, so PrecComposition[0] stays at the placeholder 0). -/
noncomputable def initLevel (c : Config) : LevelState :=
  { VaporConcentration := VaporConcentration0 c
    VaporFraction := 1
    RHvector := c.RH0
    VaporComposition18 := c.d18O0
    VaporCompositionD := c.dD0
    PrecComposition18 := 0
    PrecCompositionD := 0 }

/-- AltitudeEffect.py line 73: relative humidity at level `z` from the
previous level's vapor concentration,
`(((VaporConcentration[z-1]/1e6)*P0))/(MetFun.SatVapPress(Tvector[z]))`. -/
noncomputable def rhStep (c : Config) (prevVC : ℝ) (z : ℕ) : ℝ :=
  prevVC / 1e6 * c.P0 / SatVapPress (Tvector c z)

/-- AltitudeEffect.py line 77 (saturated branch):
`VaporConcentration[z] = 1e6*MetFun.SatVapPress(Tvector[z])/MetFun.m2hPa(z)`.
Note the source passes the integer loop index `z` to m2hPa, not the altitude
`Zvector[z]`. -/
noncomputable def satVC (c : Config) (z : ℕ) : ℝ :=
  1e6 * SatVapPress (Tvector c z) / m2hPa z

/-- AltitudeEffect.py line 79:
`VaporFraction[z] = VaporConcentration[z]/VaporConcentration[0]`. -/
noncomputable def satVF (c : Config) (z : ℕ) : ℝ := satVC c z / VaporConcentration0 c

/-- AltitudeEffect.py line 81:
`R1816_VAP = R1816_0_VAP*VaporFraction[z]**(EqFracFact.alpha18(Tvector[z])-1)`. -/
noncomputable def satR1816 (c : Config) (z : ℕ) : ℝ :=
  R1816_0_VAP c * satVF c z ^ (alpha18 (Tvector c z) - 1)

/-- AltitudeEffect.py line 82:
`R21_VAP = R21_0_VAP*VaporFraction[z]**(EqFracFact.alpha18(Tvector[z])-1)`;
the source also uses alpha18 here, not alpha2. -/
noncomputable def satR21 (c : Config) (z : ℕ) : ℝ :=
  R21_0_VAP c * satVF c z ^ (alpha18 (Tvector c z) - 1)

/-- AltitudeEffect.py line 84:
`VaporComposition[z,0] = (R1816_VAP/VSMOW1816 - 1)*1e3`. -/
noncomputable def satD18 (c : Config) (z : ℕ) : ℝ := (satR1816 c z / VSMOW1816 - 1) * 1e3

/-- AltitudeEffect.py line 85:
`VaporComposition[z,1] = (R21_VAP/VSMOW21 - 1)*1e3`. -/
noncomputable def satDD (c : Config) (z : ℕ) : ℝ := (satR21 c z / VSMOW21 - 1) * 1e3

/-- The body of the `for z` loop of AltitudeEffect.py lines 71-95: compute
RHvector[z] from level z-1, then either the saturated update (lines 77-88,
when RHvector[z] > 1.05) or the unsaturated copy-forward (lines 90-95).
`prev` is the level z-1 state. -/
noncomputable def engineStep (c : Config) (prev : LevelState) (z : ℕ) : LevelState :=
  if 1.05 < rhStep c prev.VaporConcentration z then
    { VaporConcentration := satVC c z
      VaporFraction := satVF c z
      RHvector := rhStep c prev.VaporConcentration z
      VaporComposition18 := satD18 c z
      VaporCompositionD := satDD c z
      PrecComposition18 :=
        (prev.VaporFraction * prev.VaporComposition18 - satVF c z * satD18 c z) /
          (prev.VaporFraction - satVF c z)
      PrecCompositionD :=
        (prev.VaporFraction * prev.VaporCompositionD - satVF c z * satDD c z) /
          (prev.VaporFraction - satVF c z) }
  else
    { VaporConcentration := prev.VaporConcentration
      VaporFraction := prev.VaporFraction
      RHvector := rhStep c prev.VaporConcentration z
      VaporComposition18 := prev.VaporComposition18
      VaporCompositionD := prev.VaporCompositionD
      PrecComposition18 := prev.PrecComposition18
      PrecCompositionD := prev.PrecCompositionD }

/-- The forward pass of AltitudeEffect.py lines 61-95: level 0 is the initial
condition, level z+1 is one loop iteration applied to level z. -/
noncomputable def profile (c : Config) : ℕ → LevelState
  | 0 => initLevel c
  | z + 1 => engineStep c (profile c z) (z + 1)

/-- One loop iteration as the array mutation it is in the source: the arrays
(merged into one map from level index to LevelState) are updated at index `z`
only, from the entries at index `z-1`. -/
noncomputable def passUpdate (c : Config) (A : ℕ → LevelState) (z : ℕ) :
    ℕ → LevelState :=
  Function.update A z (engineStep c (A (z - 1)) z)

open Classical in
/-- The cleanup pass of AltitudeEffect.py lines 98-101 over the first
PrecComposition column `p` of an `n`-level profile:
`i = 0; while PrecComposition[i,0] == 0: PrecComposition[i,:] = nan; i += 1`.
If some level below `n` has a nonzero entry, the loop stops at the least such
index `k`, leaving `nan` ("no value", modelled `none`) strictly below `k` and
the original values (`some`) from `k` on.  If every level is still the zero
placeholder the loop reads index `n`, an out-of-range access (IndexError),
modelled as the `none` result. -/
noncomputable def cleanupResult (n : ℕ) (p : ℕ → ℝ) : Option (ℕ → Option ℝ) :=
  if h : ∃ i, i < n ∧ p i ≠ 0 then
    some fun z => if z < Nat.find h then none else some (p z)
  else
    none

/-- The vapor concentration formula that claim C1 asserts for the saturated
branch: m2hPa applied to the altitude value `Zvector[z]` of level z. -/
noncomputable def claimSatVC (c : Config) (z : ℕ) : ℝ :=
  1e6 * SatVapPress (Tvector c z) / m2hPa (Zvector c z)

/-- A configuration exercising the saturated branch with everything needed
about it provable by elementary bounds: zero lapse rate (so the temperature,
hence SatVapPress, is constant along the profile), base pressure 5000 hPa and
initial relative humidity 2.  All its values pass the configuration checks of
spec section 7. -/
noncomputable def cV : Config :=
  { MLR := 0, MinZ := 0, MaxZ := 4000, Zres := 10, Tz0 := 20, P0 := 5000,
    RH0 := 2, d18O0 := 0, dD0 := 0 }

/-- A saturating configuration at the standard base pressure: zero lapse
rate, initial relative humidity 2, initial compositions 0. -/
noncomputable def cW : Config :=
  { MLR := 0, MinZ := 0, MaxZ := 4000, Zres := 10, Tz0 := 20, P0 := 1013.25,
    RH0 := 2, d18O0 := 0, dD0 := 0 }

/-- A configuration that never saturates: zero lapse rate and initial
relative humidity 1/2, so the computed relative humidity is 1/2 at every
level of the forward pass. -/
noncomputable def cU : Config :=
  { MLR := 0, MinZ := 0, MaxZ := 4000, Zres := 10, Tz0 := 20, P0 := 1013.25,
    RH0 := 1 / 2, d18O0 := -12, dD0 := -86 }

/-- The residual vapor fraction the saturated branch computes at level 1 of
a run with zero lapse rate, Tz0 = 20, P0 = 1013.25 and RH0 = 2 (the
SatVapPress factors cancel, leaving 1013.25/(2*m2hPa(1))). -/
noncomputable def vfX : ℝ := 1013.25 / (2 * m2hPa 1)

/-- The Rayleigh factor of that level: `vfX ** (alpha18(20) - 1)`. -/
noncomputable def gX : ℝ := vfX ^ (alpha18 20 - 1)

/-- The initial d18O for which the mass-balance numerator at the first
condensation level vanishes exactly: the solution of
`d18O0 = vfX * ((d18O0*1e-3 + 1) * gX - 1) * 1e3` (about -6.7 per mil). -/
noncomputable def d18OX : ℝ := ((1 - vfX) / (1 - vfX * gX) - 1) * 1e3

/-- The cW run with the initial composition tuned so that the mass-balance
precipitation value at the first condensation level is exactly zero. -/
noncomputable def cX : Config :=
  { MLR := 0, MinZ := 0, MaxZ := 4000, Zres := 10, Tz0 := 20, P0 := 1013.25,
    RH0 := 2, d18O0 := d18OX, dD0 := 0 }

end AltitudeEffect

namespace AltitudeEffect

theorem profile_zero (c : Config) : profile c 0 = initLevel c := rfl

theorem profile_succ (c : Config) (z : ℕ) :
    profile c (z + 1) = engineStep c (profile c z) (z + 1) := rfl

theorem engineStep_sat (c : Config) (prev : LevelState) (z : ℕ)
    (h : 1.05 < rhStep c prev.VaporConcentration z) :
    engineStep c prev z =
      { VaporConcentration := satVC c z
        VaporFraction := satVF c z
        RHvector := rhStep c prev.VaporConcentration z
        VaporComposition18 := satD18 c z
        VaporCompositionD := satDD c z
        PrecComposition18 :=
          (prev.VaporFraction * prev.VaporComposition18 - satVF c z * satD18 c z) /
            (prev.VaporFraction - satVF c z)
        PrecCompositionD :=
          (prev.VaporFraction * prev.VaporCompositionD - satVF c z * satDD c z) /
            (prev.VaporFraction - satVF c z) } := by
  rw [engineStep, if_pos h]

theorem engineStep_unsat (c : Config) (prev : LevelState) (z : ℕ)
    (h : ¬ 1.05 < rhStep c prev.VaporConcentration z) :
    engineStep c prev z =
      { VaporConcentration := prev.VaporConcentration
        VaporFraction := prev.VaporFraction
        RHvector := rhStep c prev.VaporConcentration z
        VaporComposition18 := prev.VaporComposition18
        VaporCompositionD := prev.VaporCompositionD
        PrecComposition18 := prev.PrecComposition18
        PrecCompositionD := prev.PrecCompositionD } := by
  rw [engineStep, if_neg h]

/-- The stored RHvector entry of any level z ≥ 1 is the `rhStep` value
computed from the previous level, whichever branch ran. -/
theorem profile_RH (c : Config) (z : ℕ) :
    (profile c (z + 1)).RHvector =
      rhStep c (profile c z).VaporConcentration (z + 1) := by
  rw [profile_succ, engineStep]
  split <;> rfl

theorem SatVapPress_pos (T : ℝ) : 0 < SatVapPress T :=
  mul_pos (by norm_num) (Real.exp_pos _)

theorem m2hPa_pos (m : ℝ) (h : m < 44307.69396) : 0 < m2hPa m := by
  have hb : (0 : ℝ) < 1 - m / 44307.69396 := by
    have : m / 44307.69396 < 1 := by rw [div_lt_one (by norm_num)]; exact h
    linarith
  exact mul_pos (Real.rpow_pos_of_pos hb _) (by norm_num)

theorem m2hPa_le (m : ℝ) (h0 : 0 ≤ m) (h1 : m ≤ 44307.69396) :
    m2hPa m ≤ 1013.25 := by
  have hb0 : (0 : ℝ) ≤ 1 - m / 44307.69396 := by
    have : m / 44307.69396 ≤ 1 := by rw [div_le_one (by norm_num)]; exact h1
    linarith
  have hb1 : 1 - m / 44307.69396 ≤ 1 := by
    have : 0 ≤ m / 44307.69396 := by positivity
    linarith
  have := Real.rpow_le_one hb0 hb1 (by norm_num : (0:ℝ) ≤ (1:ℝ) / 0.190284)
  calc m2hPa m ≤ 1 * 1013.25 := by
        rw [m2hPa]; exact mul_le_mul_of_nonneg_right this (by norm_num)
    _ = 1013.25 := one_mul _

/-- m2hPa is strictly decreasing on the formula's domain. -/
theorem m2hPa_lt_of_lt (a b : ℝ) (h0 : 0 ≤ a) (hab : a < b)
    (hb : b ≤ 44307.69396) : m2hPa b < m2hPa a := by
  have hx : (0 : ℝ) ≤ 1 - b / 44307.69396 := by
    have : b / 44307.69396 ≤ 1 := by rw [div_le_one (by norm_num)]; exact hb
    linarith
  have hxy : 1 - b / 44307.69396 < 1 - a / 44307.69396 := by
    have : a / 44307.69396 < b / 44307.69396 := by
      exact div_lt_div_of_pos_right hab (by norm_num)
    linarith
  have := Real.rpow_lt_rpow hx hxy
    (by norm_num : (0:ℝ) < (1:ℝ) / 0.190284)
  rw [m2hPa, m2hPa]
  exact mul_lt_mul_of_pos_right this (by norm_num)

/-- A numeric lower bound on the pressure one (index-)meter above sea level,
via a Bernoulli bound on the rational power. -/
theorem m2hPa_one_lb : 1013 ≤ m2hPa 1 := by
  have hb0 : (0 : ℝ) < 1 - 1 / 44307.69396 := by norm_num
  have hb1 : (1 : ℝ) - 1 / 44307.69396 ≤ 1 := by norm_num
  have hexp : (1 : ℝ) / 0.190284 ≤ 6 := by norm_num
  have h6 : ((1 : ℝ) - 1 / 44307.69396) ^ (6 : ℝ) ≤
      ((1 : ℝ) - 1 / 44307.69396) ^ ((1 : ℝ) / 0.190284) :=
    Real.rpow_le_rpow_of_exponent_ge hb0 hb1 hexp
  have hnat : ((1 : ℝ) - 1 / 44307.69396) ^ (6 : ℝ) =
      ((1 : ℝ) - 1 / 44307.69396) ^ (6 : ℕ) := by
    rw [← Real.rpow_natCast ((1 : ℝ) - 1 / 44307.69396) 6]
    norm_num
  have hbern : (1 : ℝ) + (6 : ℕ) * (-(1 / 44307.69396)) ≤
      ((1 : ℝ) + -(1 / 44307.69396)) ^ (6 : ℕ) :=
    one_add_mul_le_pow (by norm_num) 6
  have hval : (0.99986 : ℝ) ≤ ((1 : ℝ) - 1 / 44307.69396) ^ (6 : ℕ) := by
    have heq : ((1 : ℝ) + -(1 / 44307.69396)) = 1 - 1 / 44307.69396 := by ring
    rw [heq] at hbern
    refine le_trans ?_ hbern
    norm_num
  have hfin : (0.99986 : ℝ) ≤
      ((1 : ℝ) - 1 / 44307.69396) ^ ((1 : ℝ) / 0.190284) := by
    rw [hnat] at h6
    exact le_trans hval h6
  calc (1013 : ℝ) ≤ 0.99986 * 1013.25 := by norm_num
    _ ≤ m2hPa 1 := by
        rw [m2hPa]
        exact mul_le_mul_of_nonneg_right hfin (by norm_num)

end AltitudeEffect

namespace AltitudeEffect

/-- C4: for every altitude z in [0, 8000] m, the pressure-to-altitude
conversion inverts the altitude-to-pressure conversion exactly over the
reals: `hPa2m (m2hPa z) = z`. -/
theorem c4_round_trip (z : ℝ) (h0 : 0 ≤ z) (h8 : z ≤ 8000) :
    hPa2m (m2hPa z) = z := by
  have hb : (0 : ℝ) ≤ 1 - z / 44307.69396 := by
    have h1 : z / 44307.69396 ≤ 1 := by
      rw [div_le_one (by norm_num)]; linarith
    linarith
  rw [hPa2m, m2hPa]
  have h2 : (1 - z / 44307.69396) ^ ((1 : ℝ) / 0.190284) * 1013.25 / 1013.25
      = (1 - z / 44307.69396) ^ ((1 : ℝ) / 0.190284) := by
    field_simp
  rw [h2, ← Real.rpow_mul hb]
  have h3 : (1 : ℝ) / 0.190284 * 0.190284 = 1 := by norm_num
  rw [h3, Real.rpow_one]
  ring

/-- Witness for C4 at the concrete altitude 4000 m. -/
theorem c4_round_trip_witness : hPa2m (m2hPa 4000) = 4000 :=
  c4_round_trip 4000 (by norm_num) (by norm_num)

/-- C3 counterexample: at exactly 268.16 K (Celsius input -4.99) the code's
`alpha18` takes the `>=` (Majoube liquid) branch, so it does not equal the
Ellehoj ice formula there, contrary to the claim that at exactly 268.16 K the
Ellehoj formula is used. -/
theorem c3_boundary_counterexample :
    (-4.99 : ℝ) + 273.15 = 268.16 ∧ alpha18 (-4.99) ≠ ellehojIce18 268.16 := by
  constructor
  · norm_num
  · rw [alpha18, if_pos (by norm_num), ellehojIce18,
      show (-4.99 : ℝ) + 273.15 = 268.16 by norm_num]
    intro h
    have h2 := Real.exp_eq_exp.mp h
    norm_num at h2

/-- C3 amended: both fractionation functions convert °C input to Kelvin by
adding 273.15 and then select by the threshold 268.16 K; at or above 268.16 K
(the source tests `>=`) the Majoube (1971) liquid form is used, and strictly
below 268.16 K the Ellehoj et al. (2013) ice form is used. -/
theorem c3_threshold_selection (T : ℝ) :
    (268.16 ≤ T + 273.15 →
      alpha18 T = majoubeLiquid18 (T + 273.15) ∧
      alpha2 T = majoubeLiquid2 (T + 273.15)) ∧
    (T + 273.15 < 268.16 →
      alpha18 T = ellehojIce18 (T + 273.15) ∧
      alpha2 T = ellehojIce2 (T + 273.15)) := by
  constructor
  · intro h
    rw [alpha18, if_pos h, alpha2, if_pos h, majoubeLiquid18, majoubeLiquid2]
    exact ⟨rfl, rfl⟩
  · intro h
    rw [alpha18, if_neg (not_le.mpr h), alpha2, if_neg (not_le.mpr h),
      ellehojIce18, ellehojIce2]
    exact ⟨rfl, rfl⟩

/-- Witness for C3's amended theorem at 20 °C (liquid branch) and
-30 °C (ice branch). -/
theorem c3_threshold_selection_witness :
    alpha18 20 = majoubeLiquid18 (20 + 273.15) ∧
    alpha2 (-30) = ellehojIce2 ((-30) + 273.15) :=
  ⟨((c3_threshold_selection 20).1 (by norm_num)).1,
   ((c3_threshold_selection (-30)).2 (by norm_num)).2⟩

theorem nLevels_defaultConfig : nLevels defaultConfig = 400 := by
  rw [nLevels]
  norm_num [defaultConfig]

theorem Zvector_defaultConfig (i : ℕ) :
    Zvector defaultConfig i = i * (4000 / 399) := by
  rw [Zvector, nLevels_defaultConfig]
  norm_num [defaultConfig]

/-- C9 counterexample: in the default run (MinZ=0, MaxZ=4000, Zres=10) the
first two grid samples do not differ by the vertical resolution 10:
np.linspace spaces 400 samples over [0, 4000] by 4000/399 ≈ 10.025. -/
theorem c9_spacing_counterexample :
    Zvector defaultConfig 1 - Zvector defaultConfig 0 ≠ 10 := by
  rw [Zvector_defaultConfig, Zvector_defaultConfig]
  norm_num

/-- C9 amended: with MinZ=0, MaxZ=4000, Zres=10, the grid has exactly
int((MaxZ-MinZ)/Zres) = 400 levels, runs from the minimum 0 to the maximum
4000, is strictly increasing, and has the fixed spacing
(MaxZ-MinZ)/(400-1) = 4000/399 (about 10.025 m, not the resolution 10). -/
theorem c9_grid :
    nLevels defaultConfig = 400 ∧
    Zvector defaultConfig 0 = 0 ∧
    Zvector defaultConfig 399 = 4000 ∧
    (∀ i : ℕ, Zvector defaultConfig (i + 1) - Zvector defaultConfig i = 4000 / 399) ∧
    (∀ i j : ℕ, i < j → Zvector defaultConfig i < Zvector defaultConfig j) := by
  refine ⟨nLevels_defaultConfig, ?_, ?_, ?_, ?_⟩
  · rw [Zvector_defaultConfig]; norm_num
  · rw [Zvector_defaultConfig]; norm_num
  · intro i
    rw [Zvector_defaultConfig, Zvector_defaultConfig]
    push_cast
    ring
  · intro i j hij
    rw [Zvector_defaultConfig, Zvector_defaultConfig]
    have : (i : ℝ) < j := by exact_mod_cast hij
    exact mul_lt_mul_of_pos_right this (by norm_num)

/-- Witness for C9's amended theorem: strict increase at the first pair. -/
theorem c9_grid_witness : Zvector defaultConfig 0 < Zvector defaultConfig 1 :=
  c9_grid.2.2.2.2 0 1 (by norm_num)

theorem Tvector_MLR0 (c : Config) (hM : c.MLR = 0) (z : ℕ) :
    Tvector c z = c.Tz0 := by
  rw [Tvector, hM]
  ring

/-- With a zero lapse rate the computed relative humidity of the first step
out of the initial state is just the initial relative humidity. -/
theorem rhStep_init_MLR0 (c : Config) (hM : c.MLR = 0) (hP : c.P0 ≠ 0) (z : ℕ) :
    rhStep c (initLevel c).VaporConcentration z = c.RH0 := by
  have hS : SatVapPress c.Tz0 ≠ 0 := ne_of_gt (SatVapPress_pos _)
  show VaporConcentration0 c / 1e6 * c.P0 / SatVapPress (Tvector c z) = c.RH0
  rw [Tvector_MLR0 c hM, VaporConcentration0]
  field_simp
  ring

theorem rhStep_cV_init (z : ℕ) :
    rhStep cV (initLevel cV).VaporConcentration z = 2 :=
  rhStep_init_MLR0 cV rfl (by norm_num [cV]) z

theorem rhStep_cW_init (z : ℕ) :
    rhStep cW (initLevel cW).VaporConcentration z = 2 :=
  rhStep_init_MLR0 cW rfl (by norm_num [cW]) z

theorem rhStep_cU_init (z : ℕ) :
    rhStep cU (initLevel cU).VaporConcentration z = 1 / 2 :=
  rhStep_init_MLR0 cU rfl (by norm_num [cU]) z

theorem profile_one (c : Config) : profile c 1 = engineStep c (initLevel c) 1 := rfl

theorem Tvector_cV (z : ℕ) : Tvector cV z = 20 := Tvector_MLR0 cV rfl z

theorem Tvector_cW (z : ℕ) : Tvector cW z = 20 := Tvector_MLR0 cW rfl z

/-- The saturated branch runs at level 1 of the cV profile; the fields it
stores there. -/
theorem profile_cV_one_fields :
    (profile cV 1).VaporFraction = satVF cV 1 ∧
    (profile cV 1).VaporConcentration = satVC cV 1 ∧
    (profile cV 1).RHvector = 2 := by
  have h : 1.05 < rhStep cV (initLevel cV).VaporConcentration 1 := by
    rw [rhStep_cV_init]
    norm_num
  rw [profile_one, engineStep_sat cV (initLevel cV) 1 h]
  exact ⟨rfl, rfl, rhStep_cV_init 1⟩

theorem satVF_cV_one : satVF cV 1 = 2500 / m2hPa 1 := by
  have hS : SatVapPress 20 ≠ 0 := ne_of_gt (SatVapPress_pos 20)
  have hm : m2hPa 1 ≠ 0 := ne_of_gt (m2hPa_pos 1 (by norm_num))
  rw [satVF, satVC, VaporConcentration0, Tvector_cV]
  simp only [cV, Nat.cast_one]
  field_simp
  ring

theorem nLevels_cV : nLevels cV = 400 := by
  rw [nLevels]
  norm_num [cV]

theorem Zvector_cV_one : Zvector cV 1 = 4000 / 399 := by
  rw [Zvector, nLevels_cV]
  norm_num [cV]

/-- C1 counterexample: a run (zero lapse rate, initial relative humidity 2)
whose level 1 is saturated (computed relative humidity 2 > 1.05), yet the
stored vapor concentration is not `1e6*SatVapPress(T[1])/m2hPa(Zvector[1])`:
the source passes the loop index 1 to m2hPa, and `m2hPa 1 ≠ m2hPa (4000/399)`
since m2hPa is strictly decreasing. -/
theorem c1_pressure_argument_counterexample :
    1.05 < (profile cV 1).RHvector ∧
    (profile cV 1).VaporConcentration ≠ claimSatVC cV 1 := by
  refine ⟨?_, ?_⟩
  · rw [profile_cV_one_fields.2.2]
    norm_num
  · rw [profile_cV_one_fields.2.1, satVC, claimSatVC, Tvector_cV, Zvector_cV_one]
    simp only [Nat.cast_one]
    have hlt : m2hPa (4000 / 399) < m2hPa 1 :=
      m2hPa_lt_of_lt 1 (4000 / 399) (by norm_num) (by norm_num) (by norm_num)
    have ha : (0 : ℝ) < 1e6 * SatVapPress 20 :=
      mul_pos (by norm_num) (SatVapPress_pos 20)
    have hc : (0 : ℝ) < m2hPa (4000 / 399) := m2hPa_pos _ (by norm_num)
    exact ne_of_lt (div_lt_div_of_pos_left ha hc hlt)

/-- C1 amended: in the Saturated transition at level z the new vapor
concentration is `1e6 * SatVapPress(temperature[z]) / m2hPa(z)` where the
argument of the altitude-to-pressure conversion is the integer level index z
itself (the source passes the loop index to m2hPa), not the altitude value
`Zvector[z]` of the level. -/
theorem c1_sat_vapor_concentration (c : Config) (z : ℕ)
    (hsat : 1.05 < (profile c (z + 1)).RHvector) :
    (profile c (z + 1)).VaporConcentration =
      1e6 * SatVapPress (Tvector c (z + 1)) / m2hPa ((z + 1 : ℕ) : ℝ) := by
  rw [profile_RH] at hsat
  rw [profile_succ, engineStep_sat c _ _ hsat]
  rfl

/-- Witness for C1's amended theorem at the cV run, level 1. -/
theorem c1_sat_vapor_concentration_witness :
    (profile cV 1).VaporConcentration =
      1e6 * SatVapPress (Tvector cV 1) / m2hPa ((1 : ℕ) : ℝ) :=
  c1_sat_vapor_concentration cV 0 (by
    show (1.05 : ℝ) < (profile cV 1).RHvector
    rw [profile_cV_one_fields.2.2]
    norm_num)

/-- C2 counterexample: a run in which the vapor fraction strictly increases
from level 0 to level 1: with base pressure 5000 hPa, zero lapse rate and
initial relative humidity 2, level 1 is saturated and
`VaporFraction[1] = 2500/m2hPa(1) > 1 = VaporFraction[0]`. -/
theorem c2_monotone_counterexample :
    (profile cV 0).VaporFraction = 1 ∧
    1 < (profile cV 1).VaporFraction := by
  refine ⟨rfl, ?_⟩
  rw [profile_cV_one_fields.1, satVF_cV_one]
  have h1 : 0 < m2hPa 1 := m2hPa_pos 1 (by norm_num)
  have h2 : m2hPa 1 ≤ 1013.25 := m2hPa_le 1 (by norm_num) (by norm_num)
  rw [lt_div_iff h1]
  linarith

/-- C2 amended: the residual vapor fraction equals exactly 1 at level 0, and
across every Unsaturated step it is copied unchanged (so it is non-increasing
over every unsaturated stretch); a Saturated step recomputes it as
`VaporConcentration[z]/VaporConcentration[0]`, which for some runs exceeds
the previous level's fraction, so monotone non-increase does not hold for
every run of the engine. -/
theorem c2_vapor_fraction (c : Config) :
    (profile c 0).VaporFraction = 1 ∧
    ∀ z : ℕ, (profile c (z + 1)).RHvector ≤ 1.05 →
      (profile c (z + 1)).VaporFraction = (profile c z).VaporFraction := by
  refine ⟨rfl, ?_⟩
  intro z h
  rw [profile_RH] at h
  rw [profile_succ, engineStep_unsat c _ _ (not_lt.mpr h)]

/-- Witness for C2's amended theorem at the never-saturating cU run. -/
theorem c2_vapor_fraction_witness :
    (profile cU 0).VaporFraction = 1 ∧
    (profile cU 1).VaporFraction = (profile cU 0).VaporFraction :=
  ⟨(c2_vapor_fraction cU).1,
   (c2_vapor_fraction cU).2 0 (by
    show (profile cU 1).RHvector ≤ 1.05
    rw [profile_RH, profile_zero, rhStep_cU_init]
    norm_num)⟩

/-- C7: in the Saturated transition the new vapor absolute ratios, recovered
from the stored delta values, are the level-0 absolute ratios times
`VaporFraction[z] ^ (alpha18(temperature[z]) - 1)`: both the 18O and the 2H
update use the 18O fractionation factor in the exponent, and the base ratio
is the level-0 one, not the previous level's. -/
theorem c7_isotope_update (c : Config) (z : ℕ)
    (hsat : 1.05 < (profile c (z + 1)).RHvector) :
    ((profile c (z + 1)).VaporComposition18 * 1e-3 + 1) * VSMOW1816 =
      R1816_0_VAP c *
        (profile c (z + 1)).VaporFraction ^ (alpha18 (Tvector c (z + 1)) - 1) ∧
    ((profile c (z + 1)).VaporCompositionD * 1e-3 + 1) * VSMOW21 =
      R21_0_VAP c *
        (profile c (z + 1)).VaporFraction ^ (alpha18 (Tvector c (z + 1)) - 1) := by
  rw [profile_RH] at hsat
  rw [profile_succ, engineStep_sat c _ _ hsat]
  constructor
  · show (satD18 c (z + 1) * 1e-3 + 1) * VSMOW1816 =
      R1816_0_VAP c * satVF c (z + 1) ^ (alpha18 (Tvector c (z + 1)) - 1)
    have hV : VSMOW1816 ≠ 0 := by rw [VSMOW1816]; norm_num
    rw [satD18, satR1816]
    field_simp
    ring
  · show (satDD c (z + 1) * 1e-3 + 1) * VSMOW21 =
      R21_0_VAP c * satVF c (z + 1) ^ (alpha18 (Tvector c (z + 1)) - 1)
    have hV : VSMOW21 ≠ 0 := by rw [VSMOW21]; norm_num
    rw [satDD, satR21]
    field_simp
    ring

/-- Witness for C7 at the cV run, level 1. -/
theorem c7_isotope_update_witness :
    ((profile cV 1).VaporComposition18 * 1e-3 + 1) * VSMOW1816 =
      R1816_0_VAP cV *
        (profile cV 1).VaporFraction ^ (alpha18 (Tvector cV 1) - 1) :=
  (c7_isotope_update cV 0 (by
    show (1.05 : ℝ) < (profile cV 1).RHvector
    rw [profile_cV_one_fields.2.2]
    norm_num)).1

/-- C8: an Unsaturated iteration (computed relative humidity at most 1.05)
only writes index z of the arrays — every other index is untouched — and the
per-level fields it writes there (vapor concentration, vapor fraction, both
vapor composition deltas, both precipitation composition deltas) are copied
unchanged from index z-1.  (The RHvector entry at z is the freshly computed
relative humidity; the claim does not list it among the copied fields.) -/
theorem c8_unsat_copy (c : Config) (A : ℕ → LevelState) (z : ℕ) (hz : 1 ≤ z)
    (h : rhStep c (A (z - 1)).VaporConcentration z ≤ 1.05) :
    (∀ w, w ≠ z → passUpdate c A z w = A w) ∧
    (passUpdate c A z z).VaporConcentration = (A (z - 1)).VaporConcentration ∧
    (passUpdate c A z z).VaporFraction = (A (z - 1)).VaporFraction ∧
    (passUpdate c A z z).VaporComposition18 = (A (z - 1)).VaporComposition18 ∧
    (passUpdate c A z z).VaporCompositionD = (A (z - 1)).VaporCompositionD ∧
    (passUpdate c A z z).PrecComposition18 = (A (z - 1)).PrecComposition18 ∧
    (passUpdate c A z z).PrecCompositionD = (A (z - 1)).PrecCompositionD := by
  have hstep := engineStep_unsat c (A (z - 1)) z (not_lt.mpr h)
  refine ⟨fun w hw => Function.update_noteq hw _ _, ?_, ?_, ?_, ?_, ?_, ?_⟩ <;>
    simp only [passUpdate, Function.update_same, hstep]

/-- Witness for C8 at the never-saturating cU run (arrays all at the initial
state), iteration z = 1. -/
theorem c8_unsat_copy_witness :
    passUpdate cU (fun _ => initLevel cU) 1 0 = initLevel cU ∧
    (passUpdate cU (fun _ => initLevel cU) 1 1).VaporFraction = 1 := by
  have h := c8_unsat_copy cU (fun _ => initLevel cU) 1 le_rfl (by
    show rhStep cU (initLevel cU).VaporConcentration 1 ≤ 1.05
    rw [rhStep_cU_init]
    norm_num)
  refine ⟨h.1 0 (by norm_num), ?_⟩
  rw [h.2.2.1]
  rfl

theorem nLevels_cW : nLevels cW = 400 := by
  rw [nLevels]
  norm_num [cW]

/-- Level 1 of the cW run is saturated; the relative humidity and
precipitation composition stored there. -/
theorem profile_cW_one_fields :
    (profile cW 1).RHvector = 2 ∧
    (profile cW 1).PrecComposition18 =
      (1 * 0 - satVF cW 1 * satD18 cW 1) / (1 - satVF cW 1) := by
  have h : 1.05 < rhStep cW (initLevel cW).VaporConcentration 1 := by
    rw [rhStep_cW_init]
    norm_num
  rw [profile_one, engineStep_sat cW (initLevel cW) 1 h]
  exact ⟨rhStep_cW_init 1, rfl⟩

theorem satVF_cW_one : satVF cW 1 = 1013.25 / (2 * m2hPa 1) := by
  have hS : SatVapPress 20 ≠ 0 := ne_of_gt (SatVapPress_pos 20)
  have hm : m2hPa 1 ≠ 0 := ne_of_gt (m2hPa_pos 1 (by norm_num))
  rw [satVF, satVC, VaporConcentration0, Tvector_cW]
  simp only [cW, Nat.cast_one]
  field_simp
  ring

theorem satVF_cW_pos : 0 < satVF cW 1 := by
  rw [satVF_cW_one]
  exact div_pos (by norm_num) (by linarith [m2hPa_pos 1 (by norm_num : (1:ℝ) < 44307.69396)])

theorem satVF_cW_lt_one : satVF cW 1 < 1 := by
  rw [satVF_cW_one, div_lt_one (by linarith [m2hPa_pos 1 (by norm_num : (1:ℝ) < 44307.69396)])]
  linarith [m2hPa_one_lb]

theorem one_lt_alpha18_20 : 1 < alpha18 20 := by
  rw [alpha18, if_pos (by norm_num)]
  have h : (0 : ℝ) <
      1137 / (20 + 273.15) ^ 2 - 0.4156 / (20 + 273.15) - 0.0020667 := by
    norm_num
  calc (1 : ℝ) = Real.exp 0 := Real.exp_zero.symm
    _ < _ := Real.exp_lt_exp.mpr h

/-- The vapor delta stored at the first saturated level of the cW run is
strictly negative (Rayleigh depletion). -/
theorem satD18_cW_neg : satD18 cW 1 < 0 := by
  have hV : VSMOW1816 ≠ 0 := by rw [VSMOW1816]; norm_num
  have hg : satVF cW 1 ^ (alpha18 (Tvector cW 1) - 1) < 1 := by
    rw [Tvector_cW]
    exact Real.rpow_lt_one satVF_cW_pos.le satVF_cW_lt_one
      (by linarith [one_lt_alpha18_20])
  rw [satD18, satR1816, R1816_0_VAP]
  have h1 : (cW.d18O0 * 1e-3 + 1) = 1 := by norm_num [cW]
  rw [h1, one_mul, mul_div_cancel_left₀ _ hV]
  nlinarith

theorem prec_cW_one_pos : 0 < (profile cW 1).PrecComposition18 := by
  rw [profile_cW_one_fields.2]
  have h1 := satVF_cW_pos
  have h2 := satVF_cW_lt_one
  have h3 := satD18_cW_neg
  have hnum : 0 < 1 * 0 - satVF cW 1 * satD18 cW 1 := by nlinarith
  exact div_pos hnum (by linarith)

/-- In the cU run nothing ever changes: the vapor concentration stays at the
initial value and the relative humidity computed at every level past 0 is
1/2. -/
theorem profile_cU_const (z : ℕ) :
    (profile cU z).VaporConcentration = VaporConcentration0 cU ∧
    (1 ≤ z → (profile cU z).RHvector = 1 / 2) := by
  induction z with
  | zero => exact ⟨rfl, fun h => absurd h (by norm_num)⟩
  | succ k ih =>
    have hrh : rhStep cU (profile cU k).VaporConcentration (k + 1) = 1 / 2 := by
      rw [ih.1]
      exact rhStep_cU_init (k + 1)
    have hcopy := engineStep_unsat cU (profile cU k) (k + 1)
      (by rw [hrh]; norm_num)
    constructor
    · rw [profile_succ, hcopy]
      exact ih.1
    · intro _
      rw [profile_succ, hcopy]
      exact hrh

theorem Tvector_cX (z : ℕ) : Tvector cX z = 20 := Tvector_MLR0 cX rfl z

theorem rhStep_cX_init (z : ℕ) :
    rhStep cX (initLevel cX).VaporConcentration z = 2 :=
  rhStep_init_MLR0 cX rfl (by norm_num [cX]) z

theorem vfX_pos : 0 < vfX := by
  rw [vfX]
  exact div_pos (by norm_num)
    (by linarith [m2hPa_pos 1 (by norm_num : (1 : ℝ) < 44307.69396)])

theorem vfX_lt_one : vfX < 1 := by
  rw [vfX, div_lt_one
    (by linarith [m2hPa_pos 1 (by norm_num : (1 : ℝ) < 44307.69396)])]
  linarith [m2hPa_one_lb]

theorem gX_pos : 0 < gX := by
  rw [gX]
  exact Real.rpow_pos_of_pos vfX_pos _

theorem gX_lt_one : gX < 1 := by
  rw [gX]
  exact Real.rpow_lt_one vfX_pos.le vfX_lt_one (by linarith [one_lt_alpha18_20])

theorem satVF_cX_one : satVF cX 1 = vfX := by
  have hS : SatVapPress 20 ≠ 0 := ne_of_gt (SatVapPress_pos 20)
  have hm : m2hPa 1 ≠ 0 := ne_of_gt (m2hPa_pos 1 (by norm_num))
  rw [satVF, satVC, VaporConcentration0, Tvector_cX, vfX]
  simp only [cX, Nat.cast_one]
  field_simp
  ring

/-- Level 1 of the cX run is saturated; the fields it stores there. -/
theorem profile_cX_one_fields :
    (profile cX 1).RHvector = 2 ∧
    (profile cX 1).VaporConcentration = satVC cX 1 ∧
    (profile cX 1).PrecComposition18 =
      (1 * cX.d18O0 - satVF cX 1 * satD18 cX 1) / (1 - satVF cX 1) := by
  have h : 1.05 < rhStep cX (initLevel cX).VaporConcentration 1 := by
    rw [rhStep_cX_init]
    norm_num
  rw [profile_one, engineStep_sat cX (initLevel cX) 1 h]
  exact ⟨rhStep_cX_init 1, rfl, rfl⟩

theorem satD18_cX : satD18 cX 1 = ((cX.d18O0 * 1e-3 + 1) * gX - 1) * 1e3 := by
  have hV : VSMOW1816 ≠ 0 := by rw [VSMOW1816]; norm_num
  simp only [satD18, satR1816, R1816_0_VAP, gX]
  rw [Tvector_cX, satVF_cX_one]
  field_simp
  ring

/-- With the tuned initial composition d18OX, the mass-balance value at the
first condensation level is exactly zero. -/
theorem prec_cX_one_zero : (profile cX 1).PrecComposition18 = 0 := by
  have h1 : vfX * gX < 1 := by
    nlinarith [vfX_pos, vfX_lt_one, gX_pos, gX_lt_one]
  have hden : 1 - vfX * gX ≠ 0 := by linarith
  have hd : cX.d18O0 = d18OX := rfl
  have hnum : 1 * d18OX - vfX * (((d18OX * 1e-3 + 1) * gX - 1) * 1e3) = 0 := by
    simp only [d18OX]
    field_simp
    ring
  rw [profile_cX_one_fields.2.2, satD18_cX, satVF_cX_one, hd, hnum, zero_div]

/-- The relative humidity computed from the level-1 vapor concentration of
the cX run, at any level (the temperature is constant). -/
theorem rhStep_satVC_cX (z : ℕ) :
    rhStep cX (satVC cX 1) z = 1013.25 / m2hPa 1 := by
  have hS : SatVapPress 20 ≠ 0 := ne_of_gt (SatVapPress_pos 20)
  have hm : m2hPa 1 ≠ 0 := ne_of_gt (m2hPa_pos 1 (by norm_num))
  rw [rhStep, satVC, Tvector_cX, Tvector_cX]
  simp only [cX, Nat.cast_one]
  field_simp
  ring

theorem rh_cX_bound : 1013.25 / m2hPa 1 ≤ 1.05 := by
  have h1 : 0 < m2hPa 1 := m2hPa_pos 1 (by norm_num)
  rw [div_le_iff h1]
  linarith [m2hPa_one_lb]

/-- From level 1 on, the cX run copies level 1 forward, because its relative
humidity 1013.25/m2hPa(1) (just above 1) stays within the 1.05 tolerance; in
particular every precipitation entry stays at zero. -/
theorem profile_cX_const (z : ℕ) :
    (profile cX (z + 1)).VaporConcentration = satVC cX 1 ∧
    (profile cX (z + 1)).PrecComposition18 = 0 := by
  induction z with
  | zero => exact ⟨profile_cX_one_fields.2.1, prec_cX_one_zero⟩
  | succ k ih =>
    have hrh : rhStep cX (profile cX (k + 1)).VaporConcentration (k + 1 + 1) ≤
        1.05 := by
      rw [ih.1, rhStep_satVC_cX]
      exact rh_cX_bound
    have hcopy := engineStep_unsat cX (profile cX (k + 1)) (k + 1 + 1)
      (not_lt.mpr hrh)
    constructor
    · rw [profile_succ, hcopy]
      exact ih.1
    · rw [profile_succ, hcopy]
      exact ih.2

theorem prec_cX_all_zero (i : ℕ) : (profile cX i).PrecComposition18 = 0 := by
  cases i with
  | zero => rfl
  | succ k => exact (profile_cX_const k).2

/-- C5 counterexample: a run (cX) whose first condensation level is 1
(computed relative humidity there is 2 > 1.05, and there is no earlier
candidate) but whose Rayleigh mass-balance value at that level is exactly
zero.  The zero-keyed cleanup cannot tell that value from the placeholder:
every PrecComposition entry is zero after the forward pass, so the scan
marks level 1 "no value" too and runs off the end of the array (the crash
modelled by `none`).  Level 1 therefore does not come out of the cleanup
holding a finite composition value, contrary to the claim. -/
theorem c5_zero_mass_balance_counterexample :
    1.05 < (profile cX 1).RHvector ∧
    (profile cX 1).PrecComposition18 = 0 ∧
    cleanupResult (nLevels cX) (fun z => (profile cX z).PrecComposition18) =
      none := by
  refine ⟨?_, prec_cX_one_zero, ?_⟩
  · rw [profile_cX_one_fields.1]
    norm_num
  · have hnot : ¬ ∃ i, i < nLevels cX ∧
        (fun z => (profile cX z).PrecComposition18) i ≠ 0 := by
      rintro ⟨i, _, hne⟩
      exact hne (prec_cX_all_zero i)
    simp only [cleanupResult]
    rw [dif_neg hnot]

/-- As long as no level up to m was saturated, the PrecComposition entries up
to m are still the zero placeholder of the allocation. -/
theorem prec_placeholder (c : Config) (m : ℕ)
    (h : ∀ w, 1 ≤ w → w ≤ m → (profile c w).RHvector ≤ 1.05) :
    (profile c m).PrecComposition18 = 0 := by
  induction m with
  | zero => rfl
  | succ k ih =>
    have hk : (profile c (k + 1)).RHvector ≤ 1.05 :=
      h (k + 1) (Nat.le_add_left 1 k) le_rfl
    rw [profile_RH] at hk
    rw [profile_succ, engineStep_unsat c _ _ (not_lt.mpr hk)]
    show (profile c k).PrecComposition18 = 0
    exact ih fun w h1 h2 => h w h1 (le_trans h2 (Nat.le_succ k))

/-- C5 amended: after the forward pass and the cleanup pass, provided the
mass-balance value computed at the first saturated level zstar (the first
level with computed relative humidity above 1.05) is nonzero, the
precipitation composition is the explicit "no value" marker (`none`, NaN in
the source) at every level strictly before zstar and the stored real value
from zstar on.  The nonzero proviso is forced by the counterexample above:
the cleanup loop distinguishes levels only by the zero placeholder, so it
stops at zstar exactly when the value there is nonzero. -/
theorem c5_prec_cleanup (c : Config) (zstar : ℕ) (h1 : 1 ≤ zstar)
    (hn : zstar < nLevels c)
    (hsat : 1.05 < (profile c zstar).RHvector)
    (hbef : ∀ w, 1 ≤ w → w < zstar → (profile c w).RHvector ≤ 1.05)
    (hne : (profile c zstar).PrecComposition18 ≠ 0) :
    cleanupResult (nLevels c) (fun z => (profile c z).PrecComposition18) =
      some fun z => if z < zstar then none
        else some ((profile c z).PrecComposition18) := by
  have hzero : ∀ w, w < zstar → (profile c w).PrecComposition18 = 0 := by
    intro w hw
    exact prec_placeholder c w fun v hv1 hv2 =>
      hbef v hv1 (lt_of_le_of_lt hv2 hw)
  have hex : ∃ i, i < nLevels c ∧
      (fun z => (profile c z).PrecComposition18) i ≠ 0 := ⟨zstar, hn, hne⟩
  simp only [cleanupResult]
  rw [dif_pos hex]
  have hfind : Nat.find hex = zstar := by
    rw [Nat.find_eq_iff]
    exact ⟨⟨hn, hne⟩, fun k hk hcon => hcon.2 (hzero k hk)⟩
  rw [hfind]

/-- Witness for C5 at the cW run: level 1 is saturated and the cleanup marks
exactly level 0 as "no value". -/
theorem c5_prec_cleanup_witness :
    cleanupResult (nLevels cW) (fun z => (profile cW z).PrecComposition18) =
      some fun z => if z < 1 then none
        else some ((profile cW z).PrecComposition18) :=
  c5_prec_cleanup cW 1 le_rfl
    (by rw [nLevels_cW]; norm_num)
    (by rw [profile_cW_one_fields.1]; norm_num)
    (fun w hw1 hw2 => absurd hw2 (not_lt.mpr hw1))
    (ne_of_gt prec_cW_one_pos)

/-- C10: if the computed relative humidity never exceeds 1.05 at any level of
the run, every PrecComposition entry is still the zero placeholder, so the
cleanup while-loop never meets a nonzero entry and reads index nLevels — an
out-of-range access (IndexError) modelled by the `none` result — instead of
terminating normally with an all-"no value" profile. -/
theorem c10_cleanup_out_of_range (c : Config)
    (h : ∀ z, 1 ≤ z → z < nLevels c → (profile c z).RHvector ≤ 1.05) :
    cleanupResult (nLevels c) (fun z => (profile c z).PrecComposition18) =
      none := by
  have hnot : ¬ ∃ i, i < nLevels c ∧
      (fun z => (profile c z).PrecComposition18) i ≠ 0 := by
    rintro ⟨i, hi, hne⟩
    exact hne (prec_placeholder c i fun w h1 h2 =>
      h w h1 (lt_of_le_of_lt h2 hi))
  simp only [cleanupResult]
  rw [dif_neg hnot]

/-- Witness for C10 at the cU run, whose relative humidity is 1/2 at every
level past 0. -/
theorem c10_cleanup_out_of_range_witness :
    cleanupResult (nLevels cU) (fun z => (profile cU z).PrecComposition18) =
      none :=
  c10_cleanup_out_of_range cU fun z h1 _ => by
    rw [(profile_cU_const z).2 h1]
    norm_num

end AltitudeEffect
